import Mathlib

/-
Verification development for the Kizen attachment upload client
(`kizen-controller.py`).  The Python module is a single linear HTTP
workflow; we embed it shallowly:

* HTTP responses are modelled as already-parsed values (`Response`):
  a numeric status, a JSON field map, and a header map.  A network
  call's outcome is `Option Response`, with `none` standing for a
  transport-level failure (`requests.RequestException`).
* The clock is an explicit parameter: `t1` is the first clock sample
  (`datetime.now(timezone.utc)`, line 51) and `t2` the second
  (`datetime.utcnow()`, line 57), both as seconds since the Unix epoch.
* `uuid.uuid4()` is an oracle: a nibble stream rendered in the
  canonical hyphenated hexadecimal form.
* Every function returns its result (`Except KErr _`, errors mirroring
  the exceptions the script raises) together with the list of HTTP
  requests it issued, in order.
-/

set_option autoImplicit false

namespace Kizen

/-- Python's `str.split(sep)` for a single-character separator, on the
underlying character list: `"" ↦ [""]`, `"a.b" ↦ ["a","b"]`,
`"a." ↦ ["a",""]`. `consHead x` prepends `x` to the first chunk. -/
def consHead (x : Char) : List (List Char) → List (List Char)
  | [] => [[x]]
  | y :: ys => (x :: y) :: ys

/-- Python `str.split(c)` on character lists. -/
def pySplit (c : Char) : List Char → List (List Char)
  | [] => [[]]
  | x :: xs => if x = c then [] :: pySplit c xs else consHead x (pySplit c xs)

/-- `file_name.split('.')[-1]` (line 54): the extension used for the key. -/
def fileExtOf (name : String) : String :=
  ⟨(pySplit '.' name.data).getLastD []⟩

/-- `s.split('.')[0]` (line 190): the stem before the first dot. -/
def keyStemOf (s : String) : String :=
  ⟨(pySplit '.' s.data).headD []⟩

/-- The generated object key `f"{uuid.uuid4()}.{file_ext}"` (line 55),
with the freshly drawn identifier `u` passed in explicitly. -/
def fileKey (u : String) (name : String) : String :=
  u ++ "." ++ fileExtOf name

/-- `os.path.basename` for POSIX paths: the last `/`-separated piece. -/
def basename (p : String) : String :=
  ⟨(pySplit '/' p.data).getLastD []⟩

/-- One hexadecimal segment of a rendered UUID: `n` nibbles of the
stream `f` starting at index `lo`, in lowercase hex. -/
def hexSeg (f : Nat → Fin 16) (lo n : Nat) : List Char :=
  (List.range n).map fun i => Nat.digitChar (f (lo + i)).val

/-- `str(uuid.uuid4())` with the generator's 32 nibbles supplied by the
stream `f`: five lowercase-hex groups of sizes 8-4-4-4-12 joined by
hyphens. -/
def uuidString (f : Nat → Fin 16) : String :=
  ⟨hexSeg f 0 8 ++ '-' ::
    (hexSeg f 8 4 ++ '-' ::
      (hexSeg f 12 4 ++ '-' ::
        (hexSeg f 16 4 ++ '-' :: hexSeg f 20 12)))⟩

/-- Two decimal digits, zero padded (`%m`, `%d`, `%H`, `%M`, `%S`). -/
def pad2 (n : Nat) : List Char :=
  [Nat.digitChar (n / 10 % 10), Nat.digitChar (n % 10)]

/-- Four decimal digits, zero padded (`%Y` for years 1000–9999, the
range every reachable epoch time of the script falls in). -/
def pad4 (n : Nat) : List Char :=
  [Nat.digitChar (n / 1000 % 10), Nat.digitChar (n / 100 % 10),
   Nat.digitChar (n / 10 % 10), Nat.digitChar (n % 10)]

/-- Proleptic Gregorian date of a day count since 1970-01-01
(the standard era-based civil-from-days conversion, as performed by
`datetime` for its `%Y`/`%m`/`%d` fields). -/
def civilFromDays (z : Nat) : Nat × Nat × Nat :=
  let z' := z + 719468
  let era := z' / 146097
  let doe := z' % 146097
  let yoe := (doe - doe / 1460 + doe / 36524 - doe / 146097) / 365
  let y := yoe + era * 400
  let doy := doe - (365 * yoe + yoe / 4 - yoe / 100)
  let mp := (5 * doy + 2) / 153
  let d := doy - (153 * mp + 2) / 5 + 1
  let m := if mp < 10 then mp + 3 else mp - 9
  (if m ≤ 2 then y + 1 else y, m, d)

/-- `strftime('%Y-%m-%dT%H:%M:%SZ')` of a UTC epoch second (line 52). -/
def fmtExpiration (t : Nat) : String :=
  let c := civilFromDays (t / 86400)
  ⟨pad4 c.1 ++ '-' :: pad2 c.2.1 ++ '-' :: pad2 c.2.2 ++ 'T' ::
    pad2 (t / 3600 % 24) ++ ':' :: pad2 (t / 60 % 60) ++ ':' :: pad2 (t % 60) ++ ['Z']⟩

/-- `strftime('%Y%m%d')` of a UTC epoch second (line 53). -/
def fmtDateStamp (t : Nat) : String :=
  let c := civilFromDays (t / 86400)
  ⟨pad4 c.1 ++ pad2 c.2.1 ++ pad2 c.2.2⟩

/-- `strftime('%Y%m%dT%H%M%SZ')` of a UTC epoch second (line 74). -/
def fmtAmzDate (t : Nat) : String :=
  let c := civilFromDays (t / 86400)
  ⟨pad4 c.1 ++ pad2 c.2.1 ++ pad2 c.2.2 ++ 'T' ::
    pad2 (t / 3600 % 24) ++ pad2 (t / 60 % 60) ++ pad2 (t % 60) ++ ['Z']⟩

/-- Shape check for `YYYY-MM-DDTHH:MM:SSZ`: 20 characters, digits and
the fixed separators in the documented positions. -/
def expirationShape (s : String) : Bool :=
  match s.data with
  | [y1, y2, y3, y4, a1, m1, m2, a2, d1, d2, tC,
     h1, h2, c1, n1, n2, c2, e1, e2, zC] =>
    y1.isDigit && y2.isDigit && y3.isDigit && y4.isDigit && a1 == '-' &&
    m1.isDigit && m2.isDigit && a2 == '-' && d1.isDigit && d2.isDigit &&
    tC == 'T' && h1.isDigit && h2.isDigit && c1 == ':' && n1.isDigit &&
    n2.isDigit && c2 == ':' && e1.isDigit && e2.isDigit && zC == 'Z'
  | _ => false

/-- Shape check for `YYYYMMDD`: exactly eight digits. -/
def dateStampShape (s : String) : Bool :=
  match s.data with
  | [y1, y2, y3, y4, m1, m2, d1, d2] =>
    y1.isDigit && y2.isDigit && y3.isDigit && y4.isDigit &&
    m1.isDigit && m2.isDigit && d1.isDigit && d2.isDigit
  | _ => false

/-- Shape check for `YYYYMMDDTHHMMSSZ`: eight digits, `T`, six digits,
`Z`. -/
def amzDateShape (s : String) : Bool :=
  match s.data with
  | [y1, y2, y3, y4, m1, m2, d1, d2, tC, h1, h2, n1, n2, e1, e2, zC] =>
    y1.isDigit && y2.isDigit && y3.isDigit && y4.isDigit &&
    m1.isDigit && m2.isDigit && d1.isDigit && d2.isDigit && tC == 'T' &&
    h1.isDigit && h2.isDigit && n1.isDigit && n2.isDigit &&
    e1.isDigit && e2.isDigit && zC == 'Z'
  | _ => false

/-- The configuration `KizenClient.__init__` reads from the
environment (lines 12–22).  The identification headers built from the
last three fields accompany every records-service request and carry no
workflow logic, so they are not tracked per request. -/
structure Config where
  base_url : String
  api_key : String
  user_id : String
  business_id : String

/-- An HTTP response, already parsed: numeric status code, JSON body
as a field map, and response headers. -/
structure Response where
  status : Nat
  json : String → Option String
  headers : String → Option String

/-- Outcome of one network call: `none` is a transport failure
(`requests.RequestException`), `some r` a delivered response. -/
abbrev NetResult := Option Response

/-- Responses the outside world would give to each of the workflow's
network calls.  The workflow is linear and contacts each endpoint at
most once per run. -/
structure NetOracle where
  sigRes : NetResult
  s3Res : NetResult
  successRes : NetResult
  updateRes : NetResult

/-- One entry of the policy document's `conditions` array
(lines 81–93): a one-key JSON object, the `starts-with` triple, or the
`content-length-range` triple. -/
inductive Cond where
  | kv (k v : String)
  | startsWith (field start : String)
  | lengthRange (lo hi : String)
  deriving DecidableEq

/-- The policy document POSTed to `/s3/signature` (lines 79–94). -/
structure SigBody where
  expiration : String
  conditions : List Cond
  deriving DecidableEq

/-- The dictionary `_get_s3_signature` returns on success
(lines 102–108). -/
structure SigData where
  policy : String
  credential : String
  date : String
  signature : String
  file_key : String
  deriving DecidableEq

/-- The non-file fields of the multipart form POSTed to the storage
endpoint (lines 158–169). -/
structure S3Form where
  key : String
  content_type : String
  success_action_status : String
  acl : String
  meta_qqfilename : String
  policy : String
  algorithm : String
  credential : String
  date : String
  signature : String
  deriving DecidableEq

/-- The form body POSTed to `/s3/success` (lines 188–195). -/
structure SuccessPayload where
  key : String
  uuid : String
  name : String
  bucket : String
  etag : String
  is_public : String
  deriving DecidableEq

/-- The field updates PUT by `update_phone_call` (lines 224–239): the
link field value and the id list of the reference field. -/
structure UpdatePayload where
  call_recording_link : String
  call_recording_ids : List String
  deriving DecidableEq

/-- One HTTP request issued by the workflow, with its target URL and
the payload relevant to the specification. -/
inductive Request where
  | probe (url : String) (page_size page : Nat)
  | signature (url : String) (body : SigBody)
  | s3Upload (url : String) (form : S3Form) (file_name : String) (file_size : Nat)
  | s3Success (url : String) (source : String) (payload : SuccessPayload)
  | recordUpdate (url : String) (payload : UpdatePayload)
  deriving DecidableEq

/-- True only for the `/s3/signature` request. -/
def Request.isSignatureReq : Request → Bool
  | .signature _ _ => true
  | _ => false

/-- True only for the registration request to `/s3/success`. -/
def Request.isS3SuccessReq : Request → Bool
  | .s3Success _ _ _ => true
  | _ => false

/-- True only for the record-update `PUT` request. -/
def Request.isRecordUpdateReq : Request → Bool
  | .recordUpdate _ _ => true
  | _ => false

/-- Holds of a request unless it is a registration request whose
`uuid` form field differs from `u`. -/
def successUuidMatches (u : String) : Request → Bool
  | .s3Success _ _ pl => pl.uuid == u
  | _ => true

/-- True of a request that is neither the registration call to
`/s3/success` nor the record-update `PUT`. -/
def noRegistrationOrUpdate (q : Request) : Bool :=
  !q.isS3SuccessReq && !q.isRecordUpdateReq

/-- The errors the script can raise, named after the spec's taxonomy:
`fileNotFound` is `FileNotFoundError` (line 128), `credentialMissing`
the `ValueError` of line 130, `invalidEnvironment` the `ValueError` of
line 123, `transport` a `requests.RequestException`, `serviceError`
the `HTTPError` from `raise_for_status`, and `jsonFieldMissing` a
`KeyError` on a response body. -/
inductive KErr where
  | fileNotFound (path : String)
  | credentialMissing
  | invalidEnvironment (environment : String)
  | transport
  | serviceError (status : Nat)
  | jsonFieldMissing (field : String)
  deriving DecidableEq

/-- `Response.raise_for_status()` raises `HTTPError` exactly for
status codes 400–599. -/
def raiseForStatus (r : Response) : Except KErr Unit :=
  if 400 ≤ r.status ∧ r.status < 600 then .error (.serviceError r.status) else .ok ()

/-- `True` on the `ok` constructor: the call returned instead of
raising. -/
def resultOk {α : Type} : Except KErr α → Bool
  | .ok _ => true
  | .error _ => false

/-- The result dictionary of a successful `upload_file`
(lines 214–219). -/
structure UploadResult where
  id : String
  url : String
  size_bytes : Nat
  key : String
  deriving DecidableEq

/-- The storage base URL `f"https://{bucket}.s3.{region}.amazonaws.com/"`
(line 148). -/
def s3BaseUrl (bucket region : String) : String :=
  "https://" ++ bucket ++ ".s3." ++ region ++ ".amazonaws.com/"

namespace KizenClient

/-- `KizenClient._get_s3_bucket` (lines 113–123): the pure
environment-tag lookup; an unrecognized tag raises
`ValueError` (the spec's InvalidEnvironment). -/
def _get_s3_bucket (environment : String) : Except KErr (String × String) :=
  if environment = "staging" then .ok ("staging-file-cdn", "us-east-1")
  else if environment = "go" then .ok ("kizen-file-cdn", "us-east-1")
  else if environment = "fmo" then .ok ("fmo-file-cdn", "us-east-2")
  else if environment = "testing" then .ok ("sfdc-data-cloud", "us-east-1")
  else .error (.invalidEnvironment environment)

/-- `KizenClient.check_connection` (lines 23–45): POST the probe body
`{page_size: 50, page: 1}` to `/client/v2`; `True` exactly on status
200, `False` on any other status or on a transport failure.  Its Lean
type already records that it returns a `Bool` and cannot raise. -/
def check_connection (cfg : Config) (probeRes : NetResult) : Bool × List Request :=
  match probeRes with
  | none => (false, [Request.probe (cfg.base_url ++ "/client/v2") 50 1])
  | some r => (r.status == 200, [Request.probe (cfg.base_url ++ "/client/v2") 50 1])

/-- The policy document assembled by `_get_s3_signature`
(lines 50–94), with the two clock samples `t1` (line 51) and `t2`
(line 57) and the drawn uuid `u` made explicit. -/
def mkSignatureData (access_key : String) (t1 t2 : Nat) (u : String)
    (file_name content_type bucket region : String) : SigBody :=
  { expiration := fmtExpiration (t1 + 5 * 60),
    conditions := [
      .kv "acl" "private",
      .kv "bucket" bucket,
      .startsWith "$key" "",
      .kv "content-type" content_type,
      .kv "success_action_status" "200",
      .kv "key" (fileKey u file_name),
      .kv "x-amz-meta-qqfilename" file_name,
      .kv "x-amz-algorithm" "AWS4-HMAC-SHA256",
      .kv "x-amz-credential"
        (access_key ++ "/" ++ fmtDateStamp t1 ++ "/" ++ region ++ "/s3/aws4_request"),
      .kv "x-amz-date" (fmtAmzDate t2),
      .lengthRange "0" "50000000" ] }

/-- The request carrying the policy document to `/s3/signature`
(lines 96–100). -/
def signatureReq (cfg : Config) (access_key : String) (t1 t2 : Nat) (u : String)
    (file_name content_type bucket region : String) : Request :=
  Request.signature (cfg.base_url ++ "/s3/signature")
    (mkSignatureData access_key t1 t2 u file_name content_type bucket region)

/-- `KizenClient._get_s3_signature` (lines 47–111): resolve the
bucket, POST the policy document to `/s3/signature`, and on success
return the server's `policy`/`signature` with the locally computed
credential, date and key.  A missing JSON field is the `KeyError` the
script would raise; transport and HTTP errors propagate. -/
def _get_s3_signature (cfg : Config) (t1 t2 : Nat) (u : String) (sigRes : NetResult)
    (file_name content_type environment access_key : String) :
    Except KErr SigData × List Request :=
  match _get_s3_bucket environment with
  | .error e => (.error e, [])
  | .ok (_bucket, region) =>
    match sigRes with
    | none => (.error .transport,
        [signatureReq cfg access_key t1 t2 u file_name content_type _bucket region])
    | some r =>
      match raiseForStatus r with
      | .error e => (.error e,
          [signatureReq cfg access_key t1 t2 u file_name content_type _bucket region])
      | .ok _ =>
        match r.json "policy" with
        | none => (.error (.jsonFieldMissing "policy"),
            [signatureReq cfg access_key t1 t2 u file_name content_type _bucket region])
        | some pol =>
          match r.json "signature" with
          | none => (.error (.jsonFieldMissing "signature"),
              [signatureReq cfg access_key t1 t2 u file_name content_type _bucket region])
          | some sg =>
            (.ok { policy := pol,
                   credential := access_key ++ "/" ++ fmtDateStamp t1 ++ "/" ++
                     region ++ "/s3/aws4_request",
                   date := fmtAmzDate t2,
                   signature := sg,
                   file_key := fileKey u file_name },
              [signatureReq cfg access_key t1 t2 u file_name content_type _bucket region])

/-- The registration form body of lines 188–195; the `uuid` field is
`file_key.split('.')[0]`. -/
def mkSuccessPayload (file_key file_name bucket etag : String) : SuccessPayload :=
  { key := file_key,
    uuid := keyStemOf file_key,
    name := file_name,
    bucket := bucket,
    etag := etag,
    is_public := "False" }

/-- The multipart storage-upload request of lines 152–170: the form
fields of `data`, the file name and its byte count. -/
def s3UploadReq (sd : SigData) (file_name content_type bucket region : String)
    (fsize : Nat) : Request :=
  Request.s3Upload (s3BaseUrl bucket region)
    { key := sd.file_key, content_type := content_type,
      success_action_status := "200", acl := "private",
      meta_qqfilename := file_name, policy := sd.policy,
      algorithm := "AWS4-HMAC-SHA256", credential := sd.credential,
      date := sd.date, signature := sd.signature }
    file_name fsize

/-- The registration request of lines 196–201: `/s3/success` with the
`source` query value and the form payload, whose `etag` is the storage
response's `ETag` header (default `""`). -/
def successReq (cfg : Config) (sd : SigData) (file_name bucket : String)
    (r2 : Response) (source : String) : Request :=
  Request.s3Success (cfg.base_url ++ "/s3/success") source
    (mkSuccessPayload sd.file_key file_name bucket ((r2.headers "ETag").getD ""))

/-- `KizenClient.upload_file` (lines 125–219): existence check,
access-key check, signature request, storage upload, registration,
and the result dictionary.  `fs` maps a path to the size of the file
stored there (`none`: no such file). -/
def upload_file (cfg : Config) (fs : String → Option Nat) (t1 t2 : Nat) (u : String)
    (o : NetOracle) (file_path content_type environment : String)
    (access_key : Option String) (source : String) :
    Except KErr UploadResult × List Request :=
  match fs file_path with
  | none => (.error (.fileNotFound file_path), [])
  | some fsize =>
    if access_key = none ∨ access_key = some "" then (.error .credentialMissing, [])
    else
      match _get_s3_signature cfg t1 t2 u o.sigRes (basename file_path) content_type
          environment (access_key.getD "") with
      | (.error e, tr) => (.error e, tr)
      | (.ok sd, tr) =>
        match _get_s3_bucket environment with
        | .error e => (.error e, tr)
        | .ok (bucket, region) =>
          match o.s3Res with
          | none => (.error .transport,
              tr ++ [s3UploadReq sd (basename file_path) content_type bucket region fsize])
          | some r2 =>
            match raiseForStatus r2 with
            | .error e => (.error e,
                tr ++ [s3UploadReq sd (basename file_path) content_type bucket region fsize])
            | .ok _ =>
              match o.successRes with
              | none => (.error .transport,
                  tr ++ [s3UploadReq sd (basename file_path) content_type bucket region fsize]
                     ++ [successReq cfg sd (basename file_path) bucket r2 source])
              | some r3 =>
                match raiseForStatus r3 with
                | .error e => (.error e,
                    tr ++ [s3UploadReq sd (basename file_path) content_type bucket region fsize]
                       ++ [successReq cfg sd (basename file_path) bucket r2 source])
                | .ok _ =>
                  match r3.json "id" with
                  | none => (.error (.jsonFieldMissing "id"),
                      tr ++ [s3UploadReq sd (basename file_path) content_type bucket region fsize]
                         ++ [successReq cfg sd (basename file_path) bucket r2 source])
                  | some rid =>
                    match r3.json "key" with
                    | none => (.error (.jsonFieldMissing "key"),
                        tr ++ [s3UploadReq sd (basename file_path) content_type bucket region fsize]
                           ++ [successReq cfg sd (basename file_path) bucket r2 source])
                    | some rkey =>
                      (.ok { id := rid, url := s3BaseUrl bucket region ++ sd.file_key,
                             size_bytes := fsize, key := rkey },
                        tr ++ [s3UploadReq sd (basename file_path) content_type bucket region fsize]
                           ++ [successReq cfg sd (basename file_path) bucket r2 source])

/-- The record-update `PUT` request of lines 223–241. -/
def updateReq (cfg : Config)
    (client_object_identifier client_update_record_id url key : String) : Request :=
  Request.recordUpdate
    (cfg.base_url ++ "/records/" ++ client_object_identifier ++ "/" ++ client_update_record_id)
    { call_recording_link := url, call_recording_ids := [key] }

/-- `KizenClient.update_phone_call` (lines 221–246): PUT the two field
updates to `/records/{object}/{record}` and return the parsed response
body on success. -/
def update_phone_call (cfg : Config) (updateRes : NetResult)
    (client_object_identifier client_update_record_id url key : String) :
    Except KErr Response × List Request :=
  match updateRes with
  | none => (.error .transport, [updateReq cfg client_object_identifier client_update_record_id url key])
  | some r =>
    match raiseForStatus r with
    | .error e => (.error e, [updateReq cfg client_object_identifier client_update_record_id url key])
    | .ok _ => (.ok r, [updateReq cfg client_object_identifier client_update_record_id url key])

end KizenClient

/-- The main-block flow of lines 260–289: `upload_file`, then — only
if it returned — `update_phone_call` with the result's `url` and `id`. -/
def uploadAndUpdate (cfg : Config) (fs : String → Option Nat) (t1 t2 : Nat) (u : String)
    (o : NetOracle) (file_path content_type environment : String)
    (access_key : Option String) (source : String)
    (client_object_identifier client_update_record_id : String) :
    Except KErr Response × List Request :=
  match KizenClient.upload_file cfg fs t1 t2 u o file_path content_type environment
      access_key source with
  | (.error e, tr) => (.error e, tr)
  | (.ok res, tr) =>
    match KizenClient.update_phone_call cfg o.updateRes
        client_object_identifier client_update_record_id res.url res.id with
    | (r2, tr2) => (r2, tr ++ tr2)

section Fixtures

/-- A concrete configuration used to instantiate the theorems. -/
def sampleCfg : Config :=
  { base_url := "https://app.kizen.example", api_key := "k",
    user_id := "usr", business_id := "biz" }

/-- A file system holding exactly one file, `hello.mp3`, of 10 bytes. -/
def sampleFs : String → Option Nat :=
  fun p => if p = "hello.mp3" then some 10 else none

/-- An empty file system. -/
def emptyFs : String → Option Nat := fun _ => none

/-- A signing-endpoint response: status 200 with `policy` and
`signature` fields. -/
def sigOkResponse : Response :=
  { status := 200,
    json := fun k =>
      if k = "policy" then some "POLICY-DOC"
      else if k = "signature" then some "SIG-1" else none,
    headers := fun _ => none }

/-- A storage response with the given status and an `ETag` header. -/
def s3Response (st : Nat) : Response :=
  { status := st, json := fun _ => none,
    headers := fun h => if h = "ETag" then some "etag-1" else none }

/-- A registration response: status 200 with `id` and `key` fields. -/
def successOkResponse : Response :=
  { status := 200,
    json := fun k =>
      if k = "id" then some "rec-1"
      else if k = "key" then some "srv-key" else none,
    headers := fun _ => none }

/-- A record-update response: status 200, empty body. -/
def updateOkResponse : Response :=
  { status := 200, json := fun _ => none, headers := fun _ => none }

/-- An oracle where every endpoint answers successfully except that
the storage upload returns the given status. -/
def sampleOracle (s3status : Nat) : NetOracle :=
  { sigRes := some sigOkResponse, s3Res := some (s3Response s3status),
    successRes := some successOkResponse, updateRes := some updateOkResponse }

/-- A fixed identifier in the shape `uuid.uuid4()` renders. -/
def sampleUuid : String := "d87c0d02-e756-4cfa-b1ab-226cef856a28"

end Fixtures

/-! Helper lemmas about the Python split, the timestamp renderers and
the generated identifiers. -/

theorem consHead_ne_nil (x : Char) (l : List (List Char)) : consHead x l ≠ [] := by
  cases l <;> simp [consHead]

theorem pySplit_ne_nil (c : Char) (l : List Char) : pySplit c l ≠ [] := by
  induction l with
  | nil => simp [pySplit]
  | cons x xs ih =>
    by_cases h : x = c
    · simp [pySplit, h]
    · simpa [pySplit, h] using consHead_ne_nil x (pySplit c xs)

theorem mem_pySplit_not_mem {c : Char} {l y : List Char}
    (hy : y ∈ pySplit c l) : c ∉ y := by
  induction l generalizing y with
  | nil =>
    simp only [pySplit, List.mem_singleton] at hy
    subst hy; simp
  | cons x xs ih =>
    by_cases h : x = c
    · subst h
      simp [pySplit] at hy
      rcases hy with rfl | hy
      · simp
      · exact ih hy
    · simp only [pySplit, if_neg h] at hy
      cases hsp : pySplit c xs with
      | nil => exact absurd hsp (pySplit_ne_nil c xs)
      | cons z zs =>
        rw [hsp] at hy
        simp only [consHead, List.mem_cons] at hy
        have hz : c ∉ z := ih (by rw [hsp]; exact List.mem_cons_self z zs)
        rcases hy with rfl | hy
        · intro hc
          rcases List.mem_cons.mp hc with hc | hc
          · exact h hc.symm
          · exact hz hc
        · exact ih (by rw [hsp]; exact List.mem_cons_of_mem z hy)

theorem pySplit_append_cons {c : Char} {u : List Char} (hu : c ∉ u) (v : List Char) :
    pySplit c (u ++ c :: v) = u :: pySplit c v := by
  induction u with
  | nil => simp [pySplit]
  | cons x xs ih =>
    have hx : x ≠ c := fun h => hu (h ▸ List.mem_cons_self x xs)
    have hxs : c ∉ xs := fun h => hu (List.mem_cons_of_mem x h)
    have hstep : pySplit c (x :: (xs ++ c :: v)) = consHead x (pySplit c (xs ++ c :: v)) := by
      simp [pySplit, hx]
    rw [List.cons_append, hstep, ih hxs]
    rfl

theorem pySplit_single {c : Char} {l : List Char} (h : c ∉ l) :
    pySplit c l = [l] := by
  induction l with
  | nil => rfl
  | cons x xs ih =>
    have hx : x ≠ c := fun hh => h (hh ▸ List.mem_cons_self x xs)
    have hxs : c ∉ xs := fun hh => h (List.mem_cons_of_mem x hh)
    simp only [pySplit, if_neg hx, ih hxs, consHead]

theorem digitChar_lt_ten_isDigit : ∀ k : Fin 10, (Nat.digitChar k.val).isDigit = true := by
  decide

theorem digitChar_mod_ten_isDigit (n : Nat) : (Nat.digitChar (n % 10)).isDigit = true :=
  digitChar_lt_ten_isDigit ⟨n % 10, Nat.mod_lt _ (by decide)⟩

theorem digitChar_fin16_ne_dot : ∀ v : Fin 16, ¬ Nat.digitChar v.val = '.' := by
  decide

theorem hexSeg_no_dot (f : Nat → Fin 16) (lo n : Nat) : '.' ∉ hexSeg f lo n := by
  intro h
  rcases List.mem_map.mp h with ⟨i, _, hi⟩
  exact digitChar_fin16_ne_dot (f (lo + i)) hi

theorem uuidString_no_dot (f : Nat → Fin 16) : '.' ∉ (uuidString f).data := by
  intro h
  have hd : (uuidString f).data =
      hexSeg f 0 8 ++ '-' ::
        (hexSeg f 8 4 ++ '-' ::
          (hexSeg f 12 4 ++ '-' ::
            (hexSeg f 16 4 ++ '-' :: hexSeg f 20 12))) := rfl
  rw [hd] at h
  rcases List.mem_append.mp h with h | h
  · exact hexSeg_no_dot f 0 8 h
  rcases List.mem_cons.mp h with h | h
  · exact absurd h (by decide)
  rcases List.mem_append.mp h with h | h
  · exact hexSeg_no_dot f 8 4 h
  rcases List.mem_cons.mp h with h | h
  · exact absurd h (by decide)
  rcases List.mem_append.mp h with h | h
  · exact hexSeg_no_dot f 12 4 h
  rcases List.mem_cons.mp h with h | h
  · exact absurd h (by decide)
  rcases List.mem_append.mp h with h | h
  · exact hexSeg_no_dot f 16 4 h
  rcases List.mem_cons.mp h with h | h
  · exact absurd h (by decide)
  exact hexSeg_no_dot f 20 12 h

theorem fileExtOf_no_dot (name : String) : '.' ∉ (fileExtOf name).data := by
  have hne := pySplit_ne_nil '.' name.data
  have hmem : (pySplit '.' name.data).getLastD [] ∈ pySplit '.' name.data := by
    rcases hsp : pySplit '.' name.data with _ | ⟨z, zs⟩
    · exact absurd hsp hne
    · rw [List.getLastD_cons]
      exact List.getLastD_mem_cons zs z
  exact mem_pySplit_not_mem hmem

theorem fileKey_data (u name : String) :
    (fileKey u name).data = u.data ++ '.' :: (fileExtOf name).data := by
  show (u ++ "." ++ fileExtOf name).data = _
  rw [String.data_append, String.data_append]
  simp

theorem fileExtOf_fileKey (u name : String) (hu : '.' ∉ u.data) :
    fileExtOf (fileKey u name) = fileExtOf name := by
  have hd := fileKey_data u name
  show (⟨(pySplit '.' (fileKey u name).data).getLastD []⟩ : String) = fileExtOf name
  rw [hd, pySplit_append_cons hu, pySplit_single (fileExtOf_no_dot name)]
  rw [List.getLastD_cons, List.getLastD_cons, List.getLastD_nil]

theorem keyStemOf_fileKey (u name : String) (hu : '.' ∉ u.data) :
    keyStemOf (fileKey u name) = u := by
  show (⟨(pySplit '.' (fileKey u name).data).headD []⟩ : String) = u
  rw [fileKey_data, pySplit_append_cons hu]
  rfl

theorem fileKey_inj_uuid {u1 u2 n1 n2 : String}
    (h1 : '.' ∉ u1.data) (h2 : '.' ∉ u2.data)
    (h : fileKey u1 n1 = fileKey u2 n2) : u1 = u2 := by
  have hc := congrArg keyStemOf h
  rwa [keyStemOf_fileKey u1 n1 h1, keyStemOf_fileKey u2 n2 h2] at hc

theorem expirationShape_fmt (t : Nat) : expirationShape (fmtExpiration t) = true := by
  simp only [expirationShape, fmtExpiration, pad4, pad2, List.cons_append, List.nil_append]
  simp [digitChar_mod_ten_isDigit]

theorem dateStampShape_fmt (t : Nat) : dateStampShape (fmtDateStamp t) = true := by
  simp only [dateStampShape, fmtDateStamp, pad4, pad2, List.cons_append, List.nil_append]
  simp [digitChar_mod_ten_isDigit]

theorem amzDateShape_fmt (t : Nat) : amzDateShape (fmtAmzDate t) = true := by
  simp only [amzDateShape, fmtAmzDate, pad4, pad2, List.cons_append, List.nil_append]
  simp [digitChar_mod_ten_isDigit]

/-! Helper lemmas about the request traces of the workflow steps. -/

theorem sig_trace_all (cfg : Config) (t1 t2 : Nat) (u : String) (sigRes : NetResult)
    (file_name content_type environment access_key : String) :
    ((KizenClient._get_s3_signature cfg t1 t2 u sigRes
        file_name content_type environment access_key).2).all Request.isSignatureReq = true := by
  unfold KizenClient._get_s3_signature
  repeat' split
  all_goals simp [Request.isSignatureReq, KizenClient.signatureReq]

theorem all_of_sig (p : Request → Bool) (hp : ∀ url b, p (Request.signature url b) = true)
    {l : List Request} (h : l.all Request.isSignatureReq = true) : l.all p = true := by
  rw [List.all_eq_true] at h ⊢
  intro q hq
  have hs := h q hq
  cases q with
  | signature url b => exact hp url b
  | probe _ _ _ => simp [Request.isSignatureReq] at hs
  | s3Upload _ _ _ _ => simp [Request.isSignatureReq] at hs
  | s3Success _ _ _ => simp [Request.isSignatureReq] at hs
  | recordUpdate _ _ => simp [Request.isSignatureReq] at hs

theorem sig_ok_file_key {cfg : Config} {t1 t2 : Nat} {u : String} {sigRes : NetResult}
    {file_name content_type environment access_key : String} {sd : SigData}
    (h : (KizenClient._get_s3_signature cfg t1 t2 u sigRes
        file_name content_type environment access_key).1 = .ok sd) :
    sd.file_key = fileKey u file_name := by
  unfold KizenClient._get_s3_signature at h
  repeat' split at h
  all_goals simp_all
  exact h.symm ▸ rfl

theorem upload_file_s3_error_aborts (cfg : Config) (fs : String → Option Nat)
    (t1 t2 : Nat) (u : String) (o : NetOracle)
    (file_path content_type environment : String) (access_key : Option String)
    (source : String) (r : Response) (hr : o.s3Res = some r)
    (h4 : 400 ≤ r.status) (h6 : r.status < 600) :
    resultOk (KizenClient.upload_file cfg fs t1 t2 u o file_path content_type
      environment access_key source).1 = false ∧
    ((KizenClient.upload_file cfg fs t1 t2 u o file_path content_type
      environment access_key source).2.all noRegistrationOrUpdate) = true := by
  have htr := sig_trace_all cfg t1 t2 u o.sigRes (basename file_path)
    content_type environment (access_key.getD "")
  have hrs : raiseForStatus r = .error (.serviceError r.status) := by
    unfold raiseForStatus
    rw [if_pos ⟨h4, h6⟩]
  unfold KizenClient.upload_file
  split
  · exact ⟨rfl, rfl⟩
  · split
    · exact ⟨rfl, rfl⟩
    · split
      next e tr heq =>
        rw [heq] at htr
        exact ⟨rfl, all_of_sig noRegistrationOrUpdate (fun _ _ => rfl) (by simpa using htr)⟩
      next sd tr heq =>
        rw [heq] at htr
        have hclean := all_of_sig noRegistrationOrUpdate (fun _ _ => rfl) (by simpa using htr)
        split
        next e heq2 => exact ⟨rfl, hclean⟩
        next bucket region heq2 =>
          simp only [hr, hrs]
          refine ⟨rfl, ?_⟩
          simp [List.all_append, hclean, noRegistrationOrUpdate,
            Request.isS3SuccessReq, Request.isRecordUpdateReq, KizenClient.s3UploadReq]

/-! The claims. -/

/-- C1 counterexample: a storage response with status 300 — not an
HTTP success status, and not 200 — does not make `upload_file` raise:
`raise_for_status` only raises for 400–599, so the workflow carries on
and both the registration call to `/s3/success` and the record-update
`PUT` are issued, and an UploadResult is returned. -/
theorem c1_counterexample :
    (KizenClient.upload_file sampleCfg sampleFs 1760227200 1760227201 sampleUuid
        (sampleOracle 300) "hello.mp3" "audio/mpeg" "fmo" (some "AK") "field_value").1
      = .ok { id := "rec-1",
              url := "https://fmo-file-cdn.s3.us-east-2.amazonaws.com/d87c0d02-e756-4cfa-b1ab-226cef856a28.mp3",
              size_bytes := 10, key := "srv-key" } ∧
    resultOk (uploadAndUpdate sampleCfg sampleFs 1760227200 1760227201 sampleUuid
        (sampleOracle 300) "hello.mp3" "audio/mpeg" "fmo" (some "AK") "field_value"
        "obj-1" "rec-9").1 = true ∧
    ((uploadAndUpdate sampleCfg sampleFs 1760227200 1760227201 sampleUuid
        (sampleOracle 300) "hello.mp3" "audio/mpeg" "fmo" (some "AK") "field_value"
        "obj-1" "rec-9").2.any Request.isS3SuccessReq) = true ∧
    ((uploadAndUpdate sampleCfg sampleFs 1760227200 1760227201 sampleUuid
        (sampleOracle 300) "hello.mp3" "audio/mpeg" "fmo" (some "AK") "field_value"
        "obj-1" "rec-9").2.any Request.isRecordUpdateReq) = true :=
  ⟨rfl, rfl, rfl, rfl⟩

/-- C1 (amended): if the object-storage upload step returns an HTTP
error status — in 400–599, the statuses `raise_for_status` raises
for — `upload_file` raises and aborts: the registration call to
`/s3/success` and the record update are never invoked, and no
UploadResult is returned. -/
theorem c1_s3_error_aborts_workflow (cfg : Config) (fs : String → Option Nat)
    (t1 t2 : Nat) (u : String) (o : NetOracle)
    (file_path content_type environment : String) (access_key : Option String)
    (source client_object_identifier client_update_record_id : String)
    (r : Response) (hr : o.s3Res = some r)
    (h4 : 400 ≤ r.status) (h6 : r.status < 600) :
    resultOk (KizenClient.upload_file cfg fs t1 t2 u o file_path content_type
      environment access_key source).1 = false ∧
    resultOk (uploadAndUpdate cfg fs t1 t2 u o file_path content_type environment
      access_key source client_object_identifier client_update_record_id).1 = false ∧
    ((uploadAndUpdate cfg fs t1 t2 u o file_path content_type environment
      access_key source client_object_identifier client_update_record_id).2.all
        noRegistrationOrUpdate) = true := by
  have hab := upload_file_s3_error_aborts cfg fs t1 t2 u o file_path content_type
    environment access_key source r hr h4 h6
  refine ⟨hab.1, ?_, ?_⟩ <;>
  · unfold uploadAndUpdate
    split
    next e tr heq =>
      rw [heq] at hab
      first
        | exact rfl
        | simpa using hab.2
    next res tr heq =>
      rw [heq] at hab
      simp [resultOk] at hab

/-- C1 witness: with the storage endpoint answering 500 and every
other endpoint healthy, the workflow aborts with no registration and
no record update. -/
theorem c1_s3_error_aborts_workflow_witness :
    resultOk (KizenClient.upload_file sampleCfg sampleFs 1760227200 1760227201 sampleUuid
      (sampleOracle 500) "hello.mp3" "audio/mpeg" "fmo" (some "AK") "field_value").1 = false ∧
    resultOk (uploadAndUpdate sampleCfg sampleFs 1760227200 1760227201 sampleUuid
      (sampleOracle 500) "hello.mp3" "audio/mpeg" "fmo" (some "AK") "field_value"
      "obj-1" "rec-9").1 = false ∧
    ((uploadAndUpdate sampleCfg sampleFs 1760227200 1760227201 sampleUuid
      (sampleOracle 500) "hello.mp3" "audio/mpeg" "fmo" (some "AK") "field_value"
      "obj-1" "rec-9").2.all noRegistrationOrUpdate) = true :=
  c1_s3_error_aborts_workflow sampleCfg sampleFs 1760227200 1760227201 sampleUuid
    (sampleOracle 500) "hello.mp3" "audio/mpeg" "fmo" (some "AK") "field_value"
    "obj-1" "rec-9" (s3Response 500) rfl (by decide) (by decide)

/-- C6: the generated object key's extension (last `.`-separated
piece, as `split('.')[-1]` computes it) equals the input file name's
extension, its non-extension portion (the stem before the first `.`)
is the freshly drawn identifier itself, and two calls that draw
distinct identifiers produce distinct keys, whatever the file names. -/
theorem c6_generated_key_shape (f f1 f2 : Nat → Fin 16) (name name1 name2 : String)
    (hfresh : uuidString f1 ≠ uuidString f2) :
    fileExtOf (fileKey (uuidString f) name) = fileExtOf name ∧
    keyStemOf (fileKey (uuidString f) name) = uuidString f ∧
    fileKey (uuidString f1) name1 ≠ fileKey (uuidString f2) name2 := by
  refine ⟨fileExtOf_fileKey _ _ (uuidString_no_dot f),
          keyStemOf_fileKey _ _ (uuidString_no_dot f), fun h => ?_⟩
  exact hfresh (fileKey_inj_uuid (uuidString_no_dot f1) (uuidString_no_dot f2) h)

/-- C6 witness: concrete identifier draws, with `hello.mp3` and
`other.wav`. -/
theorem c6_generated_key_shape_witness :
    fileExtOf (fileKey (uuidString fun _ => (0 : Fin 16)) "hello.mp3")
      = fileExtOf "hello.mp3" ∧
    keyStemOf (fileKey (uuidString fun _ => (0 : Fin 16)) "hello.mp3")
      = uuidString (fun _ => (0 : Fin 16)) ∧
    fileKey (uuidString fun _ => (0 : Fin 16)) "hello.mp3"
      ≠ fileKey (uuidString fun _ => (1 : Fin 16)) "other.wav" :=
  c6_generated_key_shape (fun _ => 0) (fun _ => 0) (fun _ => 1)
    "hello.mp3" "hello.mp3" "other.wav" (by decide)

/-- C9: on every successful run, the result's `url` is the public-URL
formatter `https://<bucket>.s3.<region>.amazonaws.com/` — applied to
exactly the pair `_get_s3_bucket` resolves for the environment tag —
followed by the generated object key. -/
theorem c9_url_roundtrip (cfg : Config) (fs : String → Option Nat) (t1 t2 : Nat)
    (u : String) (o : NetOracle) (file_path content_type environment : String)
    (access_key : Option String) (source : String) (res : UploadResult)
    (bucket region : String)
    (h : (KizenClient.upload_file cfg fs t1 t2 u o file_path content_type
      environment access_key source).1 = .ok res)
    (hb : KizenClient._get_s3_bucket environment = .ok (bucket, region)) :
    res.url = s3BaseUrl bucket region ++ fileKey u (basename file_path) := by
  unfold KizenClient.upload_file at h
  split at h
  · exact absurd h (by simp)
  · split at h
    · exact absurd h (by simp)
    · split at h
      next e tr heq => exact absurd h (by simp)
      next sd tr heq =>
        have hkey : sd.file_key = fileKey u (basename file_path) :=
          sig_ok_file_key (show _ = Except.ok sd by rw [heq])
        split at h
        next e heq2 => exact absurd h (by simp)
        next bucket' region' heq2 =>
          rw [heq2] at hb
          obtain ⟨hbb, hrr⟩ : bucket' = bucket ∧ region' = region := by simpa using hb
          subst hbb
          subst hrr
          split at h
          · exact absurd h (by simp)
          next r2 heq3 =>
            split at h
            next e heq4 => exact absurd h (by simp)
            next a heq4 =>
              split at h
              · exact absurd h (by simp)
              next r3 heq5 =>
                split at h
                next e heq6 => exact absurd h (by simp)
                next a2 heq6 =>
                  split at h
                  · exact absurd h (by simp)
                  next rid heq7 =>
                    split at h
                    · exact absurd h (by simp)
                    next rkey heq8 =>
                      have hres := Except.ok.inj h
                      subst hres
                      simp [hkey]

/-- C9 witness: the fully successful `fmo` run on `hello.mp3`, whose
URL is `https://fmo-file-cdn.s3.us-east-2.amazonaws.com/<key>`. -/
theorem c9_url_roundtrip_witness :
    ({ id := "rec-1",
       url := "https://fmo-file-cdn.s3.us-east-2.amazonaws.com/d87c0d02-e756-4cfa-b1ab-226cef856a28.mp3",
       size_bytes := 10, key := "srv-key" } : UploadResult).url
      = s3BaseUrl "fmo-file-cdn" "us-east-2" ++ fileKey sampleUuid (basename "hello.mp3") :=
  c9_url_roundtrip sampleCfg sampleFs 1760227200 1760227201 sampleUuid
    (sampleOracle 200) "hello.mp3" "audio/mpeg" "fmo" (some "AK") "field_value"
    _ "fmo-file-cdn" "us-east-2" rfl rfl

/-- C10: the `uuid` form field of the registration payload — the key
stem before the first `.` — is exactly the freshly drawn identifier
used to build the key, because a rendered `uuid4` contains no `.`;
consequently every `/s3/success` request any run of `upload_file`
issues carries that identifier in its `uuid` field. -/
theorem c10_registration_uuid (f : Nat → Fin 16) (cfg : Config)
    (fs : String → Option Nat) (t1 t2 : Nat) (o : NetOracle)
    (file_path content_type environment : String) (access_key : Option String)
    (source file_name bucket etag : String) :
    (KizenClient.mkSuccessPayload (fileKey (uuidString f) file_name)
        file_name bucket etag).uuid = uuidString f ∧
    ((KizenClient.upload_file cfg fs t1 t2 (uuidString f) o file_path content_type
        environment access_key source).2.all (successUuidMatches (uuidString f))) = true := by
  have hstem : keyStemOf (fileKey (uuidString f) (basename file_path)) = uuidString f :=
    keyStemOf_fileKey _ _ (uuidString_no_dot f)
  refine ⟨keyStemOf_fileKey _ _ (uuidString_no_dot f), ?_⟩
  have htr := sig_trace_all cfg t1 t2 (uuidString f) o.sigRes (basename file_path)
    content_type environment (access_key.getD "")
  unfold KizenClient.upload_file
  split
  · simp
  · split
    · simp
    · split
      next e tr heq =>
        rw [heq] at htr
        exact all_of_sig (successUuidMatches (uuidString f)) (fun _ _ => rfl)
          (by simpa using htr)
      next sd tr heq =>
        rw [heq] at htr
        have htr' : tr.all Request.isSignatureReq = true := by simpa using htr
        have hkey : sd.file_key = fileKey (uuidString f) (basename file_path) :=
          sig_ok_file_key (show _ = Except.ok sd by rw [heq])
        have hclean := all_of_sig (successUuidMatches (uuidString f)) (fun _ _ => rfl) htr'
        repeat' split
        all_goals
          simp [List.all_append, hclean, successUuidMatches,
            KizenClient.mkSuccessPayload, KizenClient.successReq,
            KizenClient.s3UploadReq, hkey, hstem]

/-- C2: `_get_s3_bucket` is a pure total function on the four
recognized environment tags, returning exactly the documented
`(bucket, region)` pairs, and fails with an InvalidEnvironment error
(the `ValueError` of line 123) on every other string.  Being a plain
Lean function of its argument, it has no side effects. -/
theorem c2_bucket_lookup :
    KizenClient._get_s3_bucket "staging" = .ok ("staging-file-cdn", "us-east-1") ∧
    KizenClient._get_s3_bucket "go" = .ok ("kizen-file-cdn", "us-east-1") ∧
    KizenClient._get_s3_bucket "fmo" = .ok ("fmo-file-cdn", "us-east-2") ∧
    KizenClient._get_s3_bucket "testing" = .ok ("sfdc-data-cloud", "us-east-1") ∧
    ∀ environment : String, environment ≠ "staging" → environment ≠ "go" →
      environment ≠ "fmo" → environment ≠ "testing" →
      KizenClient._get_s3_bucket environment = .error (.invalidEnvironment environment) := by
  refine ⟨rfl, rfl, rfl, rfl, fun e h1 h2 h3 h4 => ?_⟩
  simp [KizenClient._get_s3_bucket, h1, h2, h3, h4]

/-- C2 witness: the unrecognized tag `"production"` fails with
InvalidEnvironment. -/
theorem c2_bucket_lookup_witness :
    KizenClient._get_s3_bucket "production" = .error (.invalidEnvironment "production") :=
  c2_bucket_lookup.2.2.2.2 "production" (by decide) (by decide) (by decide) (by decide)

/-- C3: if the source file does not exist, `upload_file` fails with
FileNotFound (`FileNotFoundError`, line 128) and its request trace is
empty: zero HTTP requests, in particular no signature request. -/
theorem c3_missing_file_no_requests (cfg : Config) (fs : String → Option Nat)
    (t1 t2 : Nat) (u : String) (o : NetOracle)
    (file_path content_type environment : String) (access_key : Option String)
    (source : String) (h : fs file_path = none) :
    KizenClient.upload_file cfg fs t1 t2 u o file_path content_type environment
      access_key source = (.error (.fileNotFound file_path), []) := by
  unfold KizenClient.upload_file
  rw [h]

/-- C3 witness: uploading `missing.mp3` from the empty file system. -/
theorem c3_missing_file_no_requests_witness :
    KizenClient.upload_file sampleCfg emptyFs 1760227200 1760227201 sampleUuid
      (sampleOracle 200) "missing.mp3" "audio/mpeg" "fmo" (some "AK") "field_value"
      = (.error (.fileNotFound "missing.mp3"), []) :=
  c3_missing_file_no_requests sampleCfg emptyFs 1760227200 1760227201 sampleUuid
    (sampleOracle 200) "missing.mp3" "audio/mpeg" "fmo" (some "AK") "field_value" rfl

/-- C4: if the file exists but no storage access key is supplied
(`None`, or the empty string, both falsy in `if not access_key`),
`upload_file` fails with CredentialMissing (the `ValueError` of
line 130) and its request trace is empty: the failure happens after
the existence check and before the signature request or any other
network call. -/
theorem c4_missing_key_before_network (cfg : Config) (fs : String → Option Nat)
    (t1 t2 : Nat) (u : String) (o : NetOracle)
    (file_path content_type environment : String) (access_key : Option String)
    (source : String) (n : Nat) (hf : fs file_path = some n)
    (hk : access_key = none ∨ access_key = some "") :
    KizenClient.upload_file cfg fs t1 t2 u o file_path content_type environment
      access_key source = (.error .credentialMissing, []) := by
  unfold KizenClient.upload_file
  rw [hf]
  simp [hk]

/-- C4 witness: `hello.mp3` exists but the access key is absent. -/
theorem c4_missing_key_before_network_witness :
    KizenClient.upload_file sampleCfg sampleFs 1760227200 1760227201 sampleUuid
      (sampleOracle 200) "hello.mp3" "audio/mpeg" "fmo" none "field_value"
      = (.error .credentialMissing, []) :=
  c4_missing_key_before_network sampleCfg sampleFs 1760227200 1760227201 sampleUuid
    (sampleOracle 200) "hello.mp3" "audio/mpeg" "fmo" none "field_value" 10 rfl (Or.inl rfl)

/-- C5: `check_connection` returns a boolean for every outcome of the
probe call — its Lean type `Bool × List Request` already rules out
raising — and the boolean is `true` exactly when a response was
delivered and its status is 200; a transport failure (`none`) or any
other status yields `false`.  The only request issued is the probe. -/
theorem c5_check_connection_boolean (cfg : Config) (probeRes : NetResult) :
    ((KizenClient.check_connection cfg probeRes).1 = true ↔
      Option.map Response.status probeRes = some 200) ∧
    (KizenClient.check_connection cfg probeRes).2
      = [Request.probe (cfg.base_url ++ "/client/v2") 50 1] := by
  cases probeRes with
  | none => simp [KizenClient.check_connection]
  | some r => simp [KizenClient.check_connection]

/-- C7: the expiration field of the policy document is the rendering
of exactly `t1 + 5 * 60` — five minutes after the issuance-time clock
sample `t1` of line 51 — in the UTC format `YYYY-MM-DDTHH:MM:SSZ`. -/
theorem c7_expiration_five_minutes (access_key : String) (t1 t2 : Nat)
    (u file_name content_type bucket region : String) :
    (KizenClient.mkSignatureData access_key t1 t2 u
        file_name content_type bucket region).expiration
      = fmtExpiration (t1 + 5 * 60) ∧
    expirationShape ((KizenClient.mkSignatureData access_key t1 t2 u
        file_name content_type bucket region).expiration) = true :=
  ⟨rfl, expirationShape_fmt (t1 + 5 * 60)⟩

/-- C8: whenever the environment resolves, the signature step sends to
the signing endpoint exactly one request whose policy document
contains the credential scope
`<accessKeyId>/<UTC date YYYYMMDD>/<region>/s3/aws4_request`, the UTC
timestamp `YYYYMMDDTHHMMSSZ`, and the content-length range
`["content-length-range", "0", "50000000"]`. -/
theorem c8_policy_document_fields (cfg : Config) (t1 t2 : Nat) (u : String)
    (sigRes : NetResult) (file_name content_type environment access_key : String)
    (bucket region : String)
    (hb : KizenClient._get_s3_bucket environment = .ok (bucket, region)) :
    (KizenClient._get_s3_signature cfg t1 t2 u sigRes
        file_name content_type environment access_key).2
      = [Request.signature (cfg.base_url ++ "/s3/signature")
          (KizenClient.mkSignatureData access_key t1 t2 u
            file_name content_type bucket region)] ∧
    Cond.kv "x-amz-credential"
        (access_key ++ "/" ++ fmtDateStamp t1 ++ "/" ++ region ++ "/s3/aws4_request")
      ∈ (KizenClient.mkSignatureData access_key t1 t2 u
          file_name content_type bucket region).conditions ∧
    dateStampShape (fmtDateStamp t1) = true ∧
    Cond.kv "x-amz-date" (fmtAmzDate t2)
      ∈ (KizenClient.mkSignatureData access_key t1 t2 u
          file_name content_type bucket region).conditions ∧
    amzDateShape (fmtAmzDate t2) = true ∧
    Cond.lengthRange "0" "50000000"
      ∈ (KizenClient.mkSignatureData access_key t1 t2 u
          file_name content_type bucket region).conditions := by
  refine ⟨?_, ?_, dateStampShape_fmt t1, ?_, amzDateShape_fmt t2, ?_⟩
  · unfold KizenClient._get_s3_signature
    rw [hb]
    cases sigRes with
    | none => rfl
    | some r =>
      repeat' split
      all_goals simp_all [KizenClient.signatureReq]
  · simp [KizenClient.mkSignatureData]
  · simp [KizenClient.mkSignatureData]
  · simp [KizenClient.mkSignatureData]

/-- C8 witness: the `fmo` environment, whose region is `us-east-2`. -/
theorem c8_policy_document_fields_witness :
    (KizenClient._get_s3_signature sampleCfg 1760227200 1760227201 sampleUuid
        (some sigOkResponse) "hello.mp3" "audio/mpeg" "fmo" "AK").2
      = [Request.signature (sampleCfg.base_url ++ "/s3/signature")
          (KizenClient.mkSignatureData "AK" 1760227200 1760227201 sampleUuid
            "hello.mp3" "audio/mpeg" "fmo-file-cdn" "us-east-2")] ∧
    Cond.kv "x-amz-credential"
        ("AK" ++ "/" ++ fmtDateStamp 1760227200 ++ "/" ++ "us-east-2" ++ "/s3/aws4_request")
      ∈ (KizenClient.mkSignatureData "AK" 1760227200 1760227201 sampleUuid
          "hello.mp3" "audio/mpeg" "fmo-file-cdn" "us-east-2").conditions ∧
    dateStampShape (fmtDateStamp 1760227200) = true ∧
    Cond.kv "x-amz-date" (fmtAmzDate 1760227201)
      ∈ (KizenClient.mkSignatureData "AK" 1760227200 1760227201 sampleUuid
          "hello.mp3" "audio/mpeg" "fmo-file-cdn" "us-east-2").conditions ∧
    amzDateShape (fmtAmzDate 1760227201) = true ∧
    Cond.lengthRange "0" "50000000"
      ∈ (KizenClient.mkSignatureData "AK" 1760227200 1760227201 sampleUuid
          "hello.mp3" "audio/mpeg" "fmo-file-cdn" "us-east-2").conditions :=
  c8_policy_document_fields sampleCfg 1760227200 1760227201 sampleUuid
    (some sigOkResponse) "hello.mp3" "audio/mpeg" "fmo" "AK" "fmo-file-cdn" "us-east-2" rfl

end Kizen
